import Mathlib

/-!
Verification of the youtube-mp3 downloader (src/run.py).

The script is orchestration glue: `ensure_ffmpeg_installed` provisions the
ffmpeg binary, `download_youtube_audio` invokes yt-dlp and locates the
produced MP3 file.  We embed both functions shallowly: every effectful
primitive (subprocess execution, filesystem queries, network fetches) is an
oracle supplied by an environment record, fallible primitives return
`Except PyExn`, and the embedded functions return the list of printed lines
together with their result.  Python exceptions become the `Except` error
branch; a `try/except` in the source becomes explicit handling of that
branch at the corresponding point of the Lean definition.
-/

namespace YtMp3

/-- Python exceptions, coarsened to the classes the source discriminates on:
the provisioner catches only SubprocessError and FileNotFoundError, while
the orchestrator's handler catches every Exception. -/
inductive PyExn where
  | fileNotFound (msg : String)
  | subprocessError (msg : String)
  | other (msg : String)
deriving DecidableEq

deriving instance DecidableEq for Except

/-- The text interpolated by a Python print of the exception. -/
def PyExn.message : PyExn → String
  | .fileNotFound m => m
  | .subprocessError m => m
  | .other m => m

/-- Splitting a character list on every occurrence of a nonempty separator,
Python str.split(sep) semantics.  The fuel argument is instantiated with the
length of the list, enough for every step since each either consumes the
separator or one character; fuel keeps the recursion structural so concrete
instances reduce inside the kernel. -/
def splitChars (sep : List Char) : Nat → List Char → List Char → List (List Char)
  | _, acc, [] => [acc.reverse]
  | 0, acc, rest => [acc.reverse ++ rest]
  | fuel + 1, acc, c :: rest =>
    if sep.isPrefixOf (c :: rest) then
      acc.reverse :: splitChars sep fuel [] ((c :: rest).drop sep.length)
    else
      splitChars sep fuel (c :: acc) rest

/-- Python str.split(sep) for a nonempty separator. -/
def pySplit (s sep : String) : List String :=
  (splitChars sep.data s.data.length [] s.data).map (fun cs => String.mk cs)

/-- The characters Python str.strip() removes by default. -/
def pyIsSpace (c : Char) : Bool :=
  c = ' ' || c = '\t' || c = '\n' || c = '\r' || c = '\x0b' || c = '\x0c'

/-- Python str.strip() with no argument. -/
def pyStrip (s : String) : String :=
  String.mk (((s.data.dropWhile pyIsSpace).reverse.dropWhile pyIsSpace).reverse)

/-- Python str.endswith. -/
def pyEndsWith (s suffix : String) : Bool :=
  suffix.data.isSuffixOf s.data

/-- Python str.startswith. -/
def pyStartsWith (s pre : String) : Bool :=
  pre.data.isPrefixOf s.data

/-- os.path.join for two components (POSIX semantics; path details are
opaque to every claim). -/
def joinPath (a b : String) : String :=
  if pyStartsWith b "/" then b
  else if a = "" || pyEndsWith a "/" then a ++ b
  else a ++ "/" ++ b

/-- os.path.dirname, to the extent the command construction needs it. -/
def dirname (p : String) : String :=
  "/".intercalate (pySplit p "/").dropLast

/-- Python `pat in s` for a nonempty pattern, expressed through splitting. -/
def containsStr (s pat : String) : Bool :=
  (pySplit s pat).length != 1

/-- Result record of subprocess.run with captured, text-mode output. -/
structure RunResult where
  returncode : Int
  stdout : String
  stderr : String
deriving DecidableEq

/-- Environment of one download_youtube_audio invocation: the filesystem and
subprocess oracles the body consults, plus the process-wide configuration
(frozen flag, platform, executable directory).  `getctime` records the
creation time the filesystem holds for a path; the source never consults it,
it is world data used to state the "most recently created" claim. -/
structure DlEnv where
  pathExists : String → Except PyExn Bool
  makedirs : String → Except PyExn Unit
  run : List String → Except PyExn RunResult
  listdir : String → Except PyExn (List String)
  getctime : String → Nat
  frozen : Bool
  platformSystem : String
  execDir : String

/-- Lines 53-55 of run.py: create the output folder when absent.  These two
statements precede the try block, so an exception here propagates. -/
def folderPrep (env : DlEnv) (output_folder : String) : Except PyExn Unit :=
  match env.pathExists output_folder with
  | .error e => .error e
  | .ok true => .ok ()
  | .ok false => env.makedirs output_folder

/-- Lines 64-76 of run.py: resolve the yt-dlp and ffmpeg executable paths,
preferring bundled binaries when running frozen. -/
def resolveBinPaths (env : DlEnv) : String × String :=
  if env.frozen then
    if env.platformSystem = "Windows" then
      (joinPath env.execDir "yt-dlp.exe", joinPath env.execDir "ffmpeg.exe")
    else if env.platformSystem = "Darwin" then
      (joinPath env.execDir "yt-dlp", joinPath env.execDir "ffmpeg")
    else ("yt-dlp", "ffmpeg")
  else ("yt-dlp", "ffmpeg")

/-- Lines 62 and 78-88 of run.py: the yt-dlp invocation. -/
def buildCommand (env : DlEnv) (url output_folder : String) : List String :=
  let output_template := joinPath output_folder "%(title)s.%(ext)s"
  let paths := resolveBinPaths env
  [paths.1,
   "-f", "bestaudio",
   "-o", output_template,
   "--extract-audio",
   "--audio-format", "mp3",
   "--audio-quality", "0",
   "--restrict-filenames",
   "--ffmpeg-location", dirname paths.2,
   url]

/-- The marker substring tested on line 103 of run.py. -/
def extractAudioMarker : String := "[ExtractAudio] Destination:"

/-- Line 104 of run.py: line.split("[ExtractAudio] Destination: ")[1].strip().
Indexing [1] raises IndexError when the split yields a single piece, which
happens when the line holds the marker without the trailing space. -/
def parseMarkerLine (line : String) : Except PyExn String :=
  match (pySplit line (extractAudioMarker ++ " ")).get? 1 with
  | some second => .ok (pyStrip second)
  | none => .error (.other "list index out of range")

/-- Lines 99-105 of run.py: scan stdout lines for the first marker line and
take the destination path from it; None when no line holds the marker. -/
def markerMp3 (output_lines : List String) : Except PyExn (Option String) :=
  match output_lines.find? (fun line => containsStr line extractAudioMarker) with
  | none => .ok none
  | some line => (parseMarkerLine line).map some

/-- Lines 108-115 of run.py: the fallback listing of the output folder,
keeping .mp3 entries and taking the last of the listing. -/
def fallbackMp3 (env : DlEnv) (output_folder : String) :
    Except PyExn (Option String) :=
  match env.listdir output_folder with
  | .error e => .error e
  | .ok entries =>
    let mp3_files := (entries.filter (fun f => pyEndsWith f ".mp3")).map
      (fun f => joinPath output_folder f)
    .ok mp3_files.getLast?

/-- The shared fallback arm of lines 108-115 of run.py: list the folder,
return the last .mp3 entry when one is there, else print the not-found
message; an error is a Python exception still to be caught by the enclosing
try. -/
def fallbackSelect (env : DlEnv) (output_folder : String) :
    List String × Except PyExn (Option String) :=
  match fallbackMp3 env output_folder with
  | .error e => ([], .error e)
  | .ok none => (["Download completed but MP3 file not found."], .ok none)
  | .ok (some last) =>
    (["Downloaded and converted to MP3: " ++ last], .ok (some last))

/-- Lines 107-118 of run.py, given the marker-scan result: decide between the
marker path, the fallback listing, and the not-found message.  The Python
truthiness test on mp3_file sends both None and the empty string to the
fallback; os.path.exists is consulted only for a truthy value. -/
def selectMp3 (env : DlEnv) (output_folder : String) (found : Option String) :
    List String × Except PyExn (Option String) :=
  match found with
  | none => fallbackSelect env output_folder
  | some p =>
    if p = "" then fallbackSelect env output_folder
    else
      match env.pathExists p with
      | .error e => ([], .error e)
      | .ok false => fallbackSelect env output_folder
      | .ok true => (["Downloaded and converted to MP3: " ++ p], .ok (some p))

/-- Lines 57-122 of run.py: the try block together with its except handler.
Every error produced inside becomes the "Unexpected error" print and a None
result; prints already emitted before the fault are kept. -/
def tryBody (env : DlEnv) (url output_folder : String) :
    List String × Except PyExn (Option String) :=
  let prints0 := ["Attempting to access: " ++ url, "Running download command..."]
  match env.run (buildCommand env url output_folder) with
  | .error e => (prints0 ++ ["Unexpected error: " ++ e.message], .ok none)
  | .ok result =>
    if result.returncode != 0 then
      (prints0 ++ ["Error downloading: " ++ result.stderr], .ok none)
    else
      match markerMp3 (pySplit result.stdout "\n") with
      | .error e => (prints0 ++ ["Unexpected error: " ++ e.message], .ok none)
      | .ok found =>
        match selectMp3 env output_folder found with
        | (ps, .error e) =>
          (prints0 ++ ps ++ ["Unexpected error: " ++ e.message], .ok none)
        | (ps, .ok r) => (prints0 ++ ps, .ok r)

/-- Lines 52-122 of run.py: download_youtube_audio.  The folder preparation
precedes the try block, so its exceptions escape to the caller; everything
else is converted by the handler into a print plus a None result. -/
def download_youtube_audio (env : DlEnv) (url : String) (output_folder : String) :
    List String × Except PyExn (Option String) :=
  match folderPrep env output_folder with
  | .error e => ([], .error e)
  | .ok _ => tryBody env url output_folder

/-- Externally visible effects of one provisioner run: subprocess launches,
network fetches, filesystem writes, copies and deletions. -/
inductive ProvEvent where
  | subproc (cmd : List String)
  | network (url : String)
  | write (path : String)
  | copy (src dst : String)
  | delete (path : String)
deriving DecidableEq

/-- Whether an event is a network access. -/
def ProvEvent.isNetwork : ProvEvent → Bool
  | .network _ => true
  | _ => false

/-- Whether an event writes to the filesystem (creation, copy or deletion). -/
def ProvEvent.isFsWrite : ProvEvent → Bool
  | .write _ => true
  | .copy _ _ => true
  | .delete _ => true
  | _ => false

/-- Whether an event places a copy of a binary. -/
def ProvEvent.isCopy : ProvEvent → Bool
  | .copy _ _ => true
  | _ => false

/-- Environment of one ensure_ffmpeg_installed invocation.  `versionCheck` is
the outcome of subprocess.run(["ffmpeg", "-version"], check=True); `walk` is
the (root, files) sequence os.walk yields under the temporary directory once
the archive is unpacked; the remaining oracles are the fallible filesystem
and network steps of the download path. -/
structure ProvEnv where
  platformSystem : String
  scriptDir : String
  versionCheck : Except PyExn Unit
  makedirsTemp : Except PyExn Unit
  urlretrieve : Except PyExn Unit
  extractall : Except PyExn Unit
  walk : List (String × List String)
  copyFfmpeg : Except PyExn Unit
  rmtreeTemp : Except PyExn Unit

/-- Line 28 of run.py: the fixed archive URL. -/
def ffmpeg_url : String :=
  "https://github.com/BtbN/FFmpeg-Builds/releases/download/latest/ffmpeg-master-latest-win64-gpl.zip"

/-- Line 16 of run.py: the handler catches (subprocess.SubprocessError,
FileNotFoundError) only. -/
def caughtByVersionHandler : PyExn → Bool
  | .fileNotFound _ => true
  | .subprocessError _ => true
  | .other _ => false

/-- Lines 37-42 of run.py: walk the unpacked tree and stop at the first root
whose file list holds ffmpeg.exe. -/
def findExeRoot (walk : List (String × List String)) : Option String :=
  (walk.find? (fun rf => rf.2.contains "ffmpeg.exe")).map (fun rf => rf.1)

/-- Lines 10-50 of run.py: ensure_ffmpeg_installed.  Output: the events
performed, the lines printed, and the returned value (an error is an
exception escaping the function, possible only when the version check fails
with an exception outside the handled classes).  A failed step contributes
no event of its own; steps already performed keep their events, matching the
source where the inner handler returns False without undoing anything. -/
def ensure_ffmpeg_installed (env : ProvEnv) :
    List ProvEvent × List String × Except PyExn Bool :=
  let ev0 : List ProvEvent := [.subproc ["ffmpeg", "-version"]]
  match env.versionCheck with
  | .ok _ => (ev0, [], .ok true)
  | .error e =>
    if !caughtByVersionHandler e then (ev0, [], .error e)
    else if env.platformSystem != "Windows" then
      (ev0, ["FFmpeg is not installed. Please install it manually."], .ok false)
    else
      let p0 := ["FFmpeg not found. Downloading..."]
      let fail := fun (ev : List ProvEvent) (e2 : PyExn) =>
        (ev, p0 ++ ["Error downloading FFmpeg: " ++ e2.message], .ok false)
      let temp_dir := joinPath env.scriptDir "temp"
      match env.makedirsTemp with
      | .error e2 => fail ev0 e2
      | .ok _ =>
        let ev1 := ev0 ++ [.write temp_dir]
        let zip_path := joinPath temp_dir "ffmpeg.zip"
        match env.urlretrieve with
        | .error e2 => fail (ev1 ++ [.network ffmpeg_url]) e2
        | .ok _ =>
          let ev2 := ev1 ++ [.network ffmpeg_url, .write zip_path]
          match env.extractall with
          | .error e2 => fail ev2 e2
          | .ok _ =>
            let ev3 := ev2 ++ [.write temp_dir]
            let afterCopy := fun (ev : List ProvEvent) =>
              match env.rmtreeTemp with
              | .error e2 => fail ev e2
              | .ok _ =>
                (ev ++ [.delete temp_dir],
                 p0 ++ ["FFmpeg downloaded successfully."], .ok true)
            match findExeRoot env.walk with
            | none => afterCopy ev3
            | some root =>
              match env.copyFfmpeg with
              | .error e2 => fail ev3 e2
              | .ok _ =>
                afterCopy (ev3 ++ [.copy (joinPath root "ffmpeg.exe") env.scriptDir])

/-! ## Helper lemmas -/

/-- find? returns the head of the first satisfying suffix. -/
theorem find?_append_first {α : Type} {p : α → Bool} {pre : List α}
    (h : pre.all (fun x => !p x) = true) (l : α) (post : List α)
    (hl : p l = true) :
    (pre ++ l :: post).find? p = some l := by
  induction pre with
  | nil => simp [List.find?, hl]
  | cons a as ih =>
    simp only [List.all_cons, Bool.and_eq_true, Bool.not_eq_true'] at h
    simpa [List.find?, h.1] using ih h.2

/-! ## Claims about download_youtube_audio -/

/-- Claim C4: when the folder preparation succeeds and the retrieval tool
exits with a nonzero status, download_youtube_audio prints the captured
stderr in its diagnostic and returns None, raising nothing. -/
theorem c4_nonzero_exit_returns_none (env : DlEnv) (url folder : String)
    (r : RunResult)
    (hprep : folderPrep env folder = .ok ())
    (hrun : env.run (buildCommand env url folder) = .ok r)
    (hrc : r.returncode ≠ 0) :
    download_youtube_audio env url folder =
      (["Attempting to access: " ++ url, "Running download command...",
        "Error downloading: " ++ r.stderr], .ok none) := by
  simp [download_youtube_audio, hprep, tryBody, hrun, hrc]

/-- Concrete instantiation of c4_nonzero_exit_returns_none: the retrieval
tool exits with status 1 and stderr "video unavailable". -/
def envC4 : DlEnv := {
  pathExists := fun p => .ok (decide (p = "downloads"))
  makedirs := fun _ => .ok ()
  run := fun _ => .ok ⟨1, "", "video unavailable"⟩
  listdir := fun _ => .ok []
  getctime := fun _ => 0
  frozen := false
  platformSystem := "Linux"
  execDir := "" }

/-- Witness for claim C4 at a concrete environment. -/
theorem c4_witness :
    download_youtube_audio envC4 "https://y/t" "downloads" =
      (["Attempting to access: https://y/t", "Running download command...",
        "Error downloading: video unavailable"], .ok none) :=
  c4_nonzero_exit_returns_none envC4 "https://y/t" "downloads"
    ⟨1, "", "video unavailable"⟩ (by decide) rfl (by decide)

/-- Claim C6: zero exit status, no marker line in stdout, and no .mp3 entry
in the output folder listing: download_youtube_audio prints the
file-not-found message and returns None. -/
theorem c6_no_marker_no_mp3_returns_none (env : DlEnv) (url folder : String)
    (r : RunResult) (entries : List String)
    (hprep : folderPrep env folder = .ok ())
    (hrun : env.run (buildCommand env url folder) = .ok r)
    (hrc : r.returncode = 0)
    (hmark : (pySplit r.stdout "\n").find?
      (fun line => containsStr line extractAudioMarker) = none)
    (hls : env.listdir folder = .ok entries)
    (hmp3 : entries.filter (fun f => pyEndsWith f ".mp3") = []) :
    download_youtube_audio env url folder =
      (["Attempting to access: " ++ url, "Running download command...",
        "Download completed but MP3 file not found."], .ok none) := by
  simp [download_youtube_audio, hprep, tryBody, hrun, hrc, markerMp3, hmark,
    selectMp3, fallbackSelect, fallbackMp3, hls, hmp3]

/-- Concrete instantiation for claim C6: empty stdout and a folder listing
with no .mp3 entry. -/
def envC6 : DlEnv := {
  pathExists := fun p => .ok (decide (p = "downloads"))
  makedirs := fun _ => .ok ()
  run := fun _ => .ok ⟨0, "[youtube] extracting\n", ""⟩
  listdir := fun _ => .ok ["notes.txt"]
  getctime := fun _ => 0
  frozen := false
  platformSystem := "Linux"
  execDir := "" }

/-- Witness for claim C6 at a concrete environment. -/
theorem c6_witness :
    download_youtube_audio envC6 "https://y/v" "downloads" =
      (["Attempting to access: https://y/v", "Running download command...",
        "Download completed but MP3 file not found."], .ok none) :=
  c6_no_marker_no_mp3_returns_none envC6 "https://y/v" "downloads"
    ⟨0, "[youtube] extracting\n", ""⟩ ["notes.txt"]
    (by decide) rfl rfl (by decide) rfl (by decide)

/-- Claim C1: zero exit status, the first stdout line holding the marker
parses to a nonempty path that exists on disk: download_youtube_audio
returns exactly that path. -/
theorem c1_marker_path_returned (env : DlEnv) (url folder : String)
    (r : RunResult) (pre : List String) (line : String) (post : List String)
    (p : String)
    (hprep : folderPrep env folder = .ok ())
    (hrun : env.run (buildCommand env url folder) = .ok r)
    (hrc : r.returncode = 0)
    (hsplit : pySplit r.stdout "\n" = pre ++ line :: post)
    (hpre : pre.all (fun x => !containsStr x extractAudioMarker) = true)
    (hline : containsStr line extractAudioMarker = true)
    (hparse : parseMarkerLine line = .ok p)
    (hp : p ≠ "")
    (hex : env.pathExists p = .ok true) :
    (download_youtube_audio env url folder).2 = .ok (some p) := by
  simp [download_youtube_audio, hprep, tryBody, hrun, hrc, markerMp3, hsplit,
    find?_append_first hpre line post hline, hparse, Except.map, selectMp3,
    fallbackSelect, hp, hex]

/-- Concrete instantiation for claim C1: scenario A of the specification. -/
def envC1 : DlEnv := {
  pathExists := fun p => .ok (decide (p = "downloads" ∨ p = "downloads/song.mp3"))
  makedirs := fun _ => .ok ()
  run := fun _ => .ok ⟨0,
    "[youtube] fetching\n[ExtractAudio] Destination: downloads/song.mp3\n[done]", ""⟩
  listdir := fun _ => .ok []
  getctime := fun _ => 0
  frozen := false
  platformSystem := "Linux"
  execDir := "" }

/-- Witness for claim C1 at a concrete environment. -/
theorem c1_witness :
    (download_youtube_audio envC1 "https://y/a" "downloads").2 =
      .ok (some "downloads/song.mp3") :=
  c1_marker_path_returned envC1 "https://y/a" "downloads"
    ⟨0, "[youtube] fetching\n[ExtractAudio] Destination: downloads/song.mp3\n[done]", ""⟩
    ["[youtube] fetching"] "[ExtractAudio] Destination: downloads/song.mp3" ["[done]"]
    "downloads/song.mp3"
    (by decide) rfl rfl (by decide) (by decide) (by decide) (by decide)
    (by decide) (by decide)

/-- Claim C10: with a zero exit status, the result of download_youtube_audio
depends only on the stdout lines up to and including the first line holding
the marker; two runs over environments with identical filesystem oracles
whose stdouts agree on that first marker line and on the lines before it
produce identical prints and results, whatever marker lines follow. -/
theorem c10_first_marker_line_only (env1 env2 : DlEnv) (url folder : String)
    (r1 r2 : RunResult) (pre : List String) (line : String)
    (post1 post2 : List String)
    (hpe : env1.pathExists = env2.pathExists)
    (hmk : env1.makedirs = env2.makedirs)
    (hld : env1.listdir = env2.listdir)
    (hrun1 : env1.run (buildCommand env1 url folder) = .ok r1)
    (hrun2 : env2.run (buildCommand env2 url folder) = .ok r2)
    (hrc1 : r1.returncode = 0)
    (hrc2 : r2.returncode = 0)
    (hsplit1 : pySplit r1.stdout "\n" = pre ++ line :: post1)
    (hsplit2 : pySplit r2.stdout "\n" = pre ++ line :: post2)
    (hpre : pre.all (fun x => !containsStr x extractAudioMarker) = true)
    (hline : containsStr line extractAudioMarker = true) :
    download_youtube_audio env1 url folder =
      download_youtube_audio env2 url folder := by
  simp [download_youtube_audio, folderPrep, tryBody, hpe, hmk, hld,
    hrun1, hrun2, hrc1, hrc2, markerMp3, hsplit1, hsplit2,
    find?_append_first hpre line post1 hline,
    find?_append_first hpre line post2 hline,
    selectMp3, fallbackSelect, fallbackMp3]

/-- A list whose getLast? is some a has a as a member. -/
theorem mem_of_getLast?_eq {α : Type} {l : List α} {a : α}
    (h : l.getLast? = some a) : a ∈ l := by
  obtain ⟨hne, rfl⟩ := List.mem_getLast?_eq_getLast (Option.mem_def.mpr h)
  exact List.getLast_mem hne

/-- Inversion for fallbackSelect: a returned path is the last .mp3 entry of
the folder listing, joined to the folder. -/
theorem fallbackSelect_ok_some (env : DlEnv) (folder : String)
    (ps : List String) (p : String)
    (h : fallbackSelect env folder = (ps, .ok (some p))) :
    ∃ entries, env.listdir folder = .ok entries ∧
      ((entries.filter (fun f => pyEndsWith f ".mp3")).map
        (fun f => joinPath folder f)).getLast? = some p := by
  unfold fallbackSelect fallbackMp3 at h
  cases hls : env.listdir folder with
  | error e => rw [hls] at h; exact absurd h.symm (by simp)
  | ok entries =>
    rw [hls] at h
    simp only at h
    cases hlast : ((entries.filter (fun f => pyEndsWith f ".mp3")).map
        (fun f => joinPath folder f)).getLast? with
    | none => rw [hlast] at h; exact absurd h.symm (by simp)
    | some last =>
      rw [hlast] at h
      have hp : last = p := by
        have := congrArg Prod.snd h
        simpa using this
      exact ⟨entries, rfl, by rw [hlast, hp]⟩

/-- Inversion for selectMp3: a returned path either passed the existence
check on the marker path or is the last .mp3 entry of the folder listing. -/
theorem selectMp3_ok_some (env : DlEnv) (folder : String) (found : Option String)
    (ps : List String) (p : String)
    (h : selectMp3 env folder found = (ps, .ok (some p))) :
    env.pathExists p = .ok true ∨
      ∃ entries, env.listdir folder = .ok entries ∧
        ((entries.filter (fun f => pyEndsWith f ".mp3")).map
          (fun f => joinPath folder f)).getLast? = some p := by
  unfold selectMp3 at h
  cases found with
  | none => exact Or.inr (fallbackSelect_ok_some env folder ps p h)
  | some q =>
    simp only at h
    by_cases hq : q = ""
    · rw [if_pos hq] at h
      exact Or.inr (fallbackSelect_ok_some env folder ps p h)
    · rw [if_neg hq] at h
      cases hpe : env.pathExists q with
      | error e => rw [hpe] at h; exact absurd h.symm (by simp)
      | ok b =>
        cases b with
        | false =>
          rw [hpe] at h
          exact Or.inr (fallbackSelect_ok_some env folder ps p h)
        | true =>
          rw [hpe] at h
          have hp : q = p := by
            have := congrArg Prod.snd h
            simpa using this
          exact Or.inl (hp ▸ hpe)

/-- Inversion for tryBody: a non-None result comes out of selectMp3. -/
theorem tryBody_ok_some (env : DlEnv) (url folder p : String)
    (h : (tryBody env url folder).2 = .ok (some p)) :
    ∃ ps found, selectMp3 env folder found = (ps, .ok (some p)) := by
  simp only [tryBody] at h
  split at h
  case _ => simp_all
  case _ =>
    split at h
    case _ => simp_all
    case _ =>
      split at h
      case _ => simp_all
      case _ found =>
        split at h
        case _ => simp_all
        case _ ps r heq =>
          simp only at h
          exact ⟨ps, _, by rw [heq, h]⟩

/-- Claim C7: over a filesystem snapshot in which every .mp3 entry of the
output folder listing exists on disk at its joined path, a non-None result
of download_youtube_audio names a path that exists on disk. -/
theorem c7_result_path_exists (env : DlEnv) (url folder p : String)
    (hfs : ∀ entries f, env.listdir folder = .ok entries → f ∈ entries →
      pyEndsWith f ".mp3" = true → env.pathExists (joinPath folder f) = .ok true)
    (hres : (download_youtube_audio env url folder).2 = .ok (some p)) :
    env.pathExists p = .ok true := by
  simp only [download_youtube_audio] at hres
  split at hres
  case _ => simp_all
  case _ =>
    obtain ⟨ps, found, hsel⟩ := tryBody_ok_some env url folder p hres
    rcases selectMp3_ok_some env folder found ps p hsel with hex | ⟨entries, hls, hlast⟩
    · exact hex
    · obtain ⟨f, hf, rfl⟩ := List.mem_map.mp (mem_of_getLast?_eq hlast)
      obtain ⟨hmem, hsuf⟩ := List.mem_filter.mp hf
      exact hfs entries f hls hmem hsuf

/-- Concrete instantiation for claim C7: fallback branch with two .mp3
entries present on disk. -/
def envC7 : DlEnv := {
  pathExists := fun p => .ok (decide
    (p = "downloads" ∨ p = "downloads/x.mp3" ∨ p = "downloads/y.mp3"))
  makedirs := fun _ => .ok ()
  run := fun _ => .ok ⟨0, "", ""⟩
  listdir := fun _ => .ok ["x.mp3", "y.mp3"]
  getctime := fun _ => 0
  frozen := false
  platformSystem := "Linux"
  execDir := "" }

/-- Witness for claim C7 at a concrete environment. -/
theorem c7_witness : envC7.pathExists "downloads/y.mp3" = .ok true :=
  c7_result_path_exists envC7 "https://y/w" "downloads" "downloads/y.mp3"
    (by
      intro entries f hls hf hsuf
      have he : entries = ["x.mp3", "y.mp3"] := (Except.ok.inj hls).symm
      subst he
      simp only [List.mem_cons, List.not_mem_nil, or_false] at hf
      rcases hf with rfl | rfl <;> decide)
    (by decide)

/-- Concrete instantiations for claim C10: two environments identical except
that the second stdout carries an extra, later marker line naming a
different path. -/
def envC10a : DlEnv := {
  pathExists := fun p => .ok (decide (p = "downloads" ∨ p = "downloads/a.mp3"))
  makedirs := fun _ => .ok ()
  run := fun _ => .ok ⟨0, "[ExtractAudio] Destination: downloads/a.mp3\n[x]", ""⟩
  listdir := fun _ => .ok []
  getctime := fun _ => 0
  frozen := false
  platformSystem := "Linux"
  execDir := "" }

/-- Second environment for claim C10, differing only in stdout. -/
def envC10b : DlEnv := { envC10a with
  run := fun _ => .ok ⟨0,
    "[ExtractAudio] Destination: downloads/a.mp3\n[ExtractAudio] Destination: downloads/b.mp3", ""⟩ }

/-- Witness for claim C10 at concrete environments. -/
theorem c10_witness :
    download_youtube_audio envC10a "https://y/v" "downloads" =
      download_youtube_audio envC10b "https://y/v" "downloads" :=
  c10_first_marker_line_only envC10a envC10b "https://y/v" "downloads"
    ⟨0, "[ExtractAudio] Destination: downloads/a.mp3\n[x]", ""⟩
    ⟨0, "[ExtractAudio] Destination: downloads/a.mp3\n[ExtractAudio] Destination: downloads/b.mp3", ""⟩
    [] "[ExtractAudio] Destination: downloads/a.mp3" ["[x]"]
    ["[ExtractAudio] Destination: downloads/b.mp3"]
    rfl rfl rfl rfl rfl rfl rfl (by decide) (by decide) (by decide) (by decide)

/-- Concrete environment refuting claim C3: the output-folder existence
check raises before the try block is entered. -/
def envC3 : DlEnv := {
  pathExists := fun _ => .error (.other "PermissionError: [Errno 13]")
  makedirs := fun _ => .ok ()
  run := fun _ => .ok ⟨0, "", ""⟩
  listdir := fun _ => .ok []
  getctime := fun _ => 0
  frozen := false
  platformSystem := "Linux"
  execDir := "" }

/-- Counterexample to claim C3 as stated: when the folder existence check
raises, download_youtube_audio propagates the exception to the caller (no
diagnostic, no None result). -/
theorem c3_counterexample :
    download_youtube_audio envC3 "https://y/v" "downloads" =
      ([], .error (.other "PermissionError: [Errno 13]")) := by decide

/-- Claim C3 as amended: once the pre-try folder preparation has succeeded,
no exception escapes download_youtube_audio, and in particular an exception
raised by the retrieval-tool invocation is converted to the diagnostic print
and a None result. -/
theorem c3_no_exception_after_folder_prep (env : DlEnv) (url folder : String)
    (hprep : folderPrep env folder = .ok ()) :
    (∃ r, (download_youtube_audio env url folder).2 = .ok r) ∧
    (∀ e, env.run (buildCommand env url folder) = .error e →
      download_youtube_audio env url folder =
        (["Attempting to access: " ++ url, "Running download command...",
          "Unexpected error: " ++ e.message], .ok none)) := by
  constructor
  · simp only [download_youtube_audio, hprep, tryBody]
    cases hrun : env.run (buildCommand env url folder) with
    | error e => exact ⟨none, rfl⟩
    | ok r =>
      by_cases hrc : (r.returncode != 0) = true
      · simp only [hrc, if_true]
        exact ⟨none, rfl⟩
      · simp only [hrc, if_false, Bool.false_eq_true]
        cases hmk : markerMp3 (pySplit r.stdout "\n") with
        | error e => exact ⟨none, rfl⟩
        | ok found =>
          rcases hsel : selectMp3 env folder found with ⟨ps, res⟩
          cases res with
          | error e => simp only [hsel]; exact ⟨none, rfl⟩
          | ok r2 => simp only [hsel]; exact ⟨r2, rfl⟩
  · intro e hrun
    simp [download_youtube_audio, hprep, tryBody, hrun]

/-- Concrete environment for the amended claim C3: yt-dlp itself is absent,
so subprocess.run raises inside the try block. -/
def envC3w : DlEnv := {
  pathExists := fun p => .ok (decide (p = "downloads"))
  makedirs := fun _ => .ok ()
  run := fun _ => .error (.fileNotFound "No such file or directory: yt-dlp")
  listdir := fun _ => .ok []
  getctime := fun _ => 0
  frozen := false
  platformSystem := "Linux"
  execDir := "" }

/-- Witness for the amended claim C3 at a concrete environment. -/
theorem c3_witness :
    (∃ r, (download_youtube_audio envC3w "https://y/v" "downloads").2 = .ok r) ∧
    (∀ e, envC3w.run (buildCommand envC3w "https://y/v" "downloads") = .error e →
      download_youtube_audio envC3w "https://y/v" "downloads" =
        (["Attempting to access: https://y/v", "Running download command...",
          "Unexpected error: " ++ e.message], .ok none)) :=
  c3_no_exception_after_folder_prep envC3w "https://y/v" "downloads" (by decide)

/-- The file claim C2 (and the comment on line 112 of run.py) says the
fallback selects: among the .mp3 entries of the output folder, the one with
the greatest creation time recorded by the filesystem.  This definition
follows the claim's words; the source never consults creation times. -/
def mostRecentMp3 (env : DlEnv) (folder : String) : Option String :=
  match env.listdir folder with
  | .error _ => none
  | .ok entries =>
    ((entries.filter (fun f => pyEndsWith f ".mp3")).map
      (fun f => joinPath folder f)).foldl
      (fun acc f =>
        match acc with
        | none => some f
        | some g => if env.getctime f > env.getctime g then some f else some g)
      none

/-- Concrete environment exhibiting the C2 bug: the folder listing is
["b.mp3", "a.mp3"] while b.mp3 is the more recently created file. -/
def envC2 : DlEnv := {
  pathExists := fun p => .ok (decide (p = "downloads"))
  makedirs := fun _ => .ok ()
  run := fun _ => .ok ⟨0, "[youtube] done\n", ""⟩
  listdir := fun _ => .ok ["b.mp3", "a.mp3"]
  getctime := fun p => if p = "downloads/b.mp3" then 10 else 5
  frozen := false
  platformSystem := "Linux"
  execDir := "" }

/-- Claim C2, evaluated at the failing input: with the marker absent and the
folder listing holding b.mp3 before a.mp3, the code returns downloads/a.mp3,
the last entry of the listing, although the most recently created .mp3 file
is downloads/b.mp3.  os.listdir order is arbitrary, so the source's
mp3_files[-1] does not implement "most recently created" and contradicts
its own comment. -/
theorem c2_last_listing_entry_not_most_recent :
    (download_youtube_audio envC2 "https://y/v" "downloads").2 =
        .ok (some "downloads/a.mp3") ∧
      mostRecentMp3 envC2 "downloads" = some "downloads/b.mp3" ∧
      envC2.getctime "downloads/b.mp3" > envC2.getctime "downloads/a.mp3" := by
  refine ⟨by decide, by decide, by decide⟩

/-! ## Claims about ensure_ffmpeg_installed -/

/-- Claim C8: on a non-Windows platform with the binary missing (the version
check raises FileNotFoundError), ensure_ffmpeg_installed prints the
manual-install instruction and returns false, and its event trace holds no
network access (its only event is the version-check subprocess). -/
theorem c8_non_windows_no_network (env : ProvEnv) (msg : String)
    (hplat : env.platformSystem ≠ "Windows")
    (hmiss : env.versionCheck = .error (.fileNotFound msg)) :
    ensure_ffmpeg_installed env =
        ([.subproc ["ffmpeg", "-version"]],
         ["FFmpeg is not installed. Please install it manually."], .ok false) ∧
      (ensure_ffmpeg_installed env).1.filter ProvEvent.isNetwork = [] := by
  have h : ensure_ffmpeg_installed env =
      ([.subproc ["ffmpeg", "-version"]],
       ["FFmpeg is not installed. Please install it manually."], .ok false) := by
    simp [ensure_ffmpeg_installed, hmiss, caughtByVersionHandler, hplat]
  exact ⟨h, by rw [h]; decide⟩

/-- Concrete instantiation for claim C8: Linux host, missing binary. -/
def envC8 : ProvEnv := {
  platformSystem := "Linux"
  scriptDir := "/app"
  versionCheck := .error (.fileNotFound "No such file or directory: ffmpeg")
  makedirsTemp := .ok ()
  urlretrieve := .ok ()
  extractall := .ok ()
  walk := []
  copyFfmpeg := .ok ()
  rmtreeTemp := .ok () }

/-- Witness for claim C8 at a concrete environment. -/
theorem c8_witness :
    ensure_ffmpeg_installed envC8 =
        ([.subproc ["ffmpeg", "-version"]],
         ["FFmpeg is not installed. Please install it manually."], .ok false) ∧
      (ensure_ffmpeg_installed envC8).1.filter ProvEvent.isNetwork = [] :=
  c8_non_windows_no_network envC8 "No such file or directory: ffmpeg"
    (by decide) rfl

/-- Claim C9: whenever the version check succeeds — in particular on the
second of two consecutive invocations, the binary being already present and
invocable — ensure_ffmpeg_installed returns true at once, prints nothing,
and its event trace (the version-check subprocess alone) holds no network
access and no filesystem write. -/
theorem c9_present_binary_no_effects (env : ProvEnv)
    (h : env.versionCheck = .ok ()) :
    ensure_ffmpeg_installed env =
        ([.subproc ["ffmpeg", "-version"]], [], .ok true) ∧
      (ensure_ffmpeg_installed env).1.filter
        (fun e => e.isNetwork || e.isFsWrite) = [] := by
  have he : ensure_ffmpeg_installed env =
      ([.subproc ["ffmpeg", "-version"]], [], .ok true) := by
    simp [ensure_ffmpeg_installed, h]
  exact ⟨he, by rw [he]; decide⟩

/-- Concrete instantiation for claim C9: the binary answers the version
query, as after a successful first provisioning run. -/
def envC9 : ProvEnv := {
  platformSystem := "Windows"
  scriptDir := "C:/app"
  versionCheck := .ok ()
  makedirsTemp := .ok ()
  urlretrieve := .ok ()
  extractall := .ok ()
  walk := []
  copyFfmpeg := .ok ()
  rmtreeTemp := .ok () }

/-- Witness for claim C9 at a concrete environment. -/
theorem c9_witness :
    ensure_ffmpeg_installed envC9 =
        ([.subproc ["ffmpeg", "-version"]], [], .ok true) ∧
      (ensure_ffmpeg_installed envC9).1.filter
        (fun e => e.isNetwork || e.isFsWrite) = [] :=
  c9_present_binary_no_effects envC9 rfl

/-- Concrete environment refuting claim C5 as stated: Windows host, missing
binary, every download step succeeds, but the unpacked archive holds no
ffmpeg.exe anywhere. -/
def envC5x : ProvEnv := {
  platformSystem := "Windows"
  scriptDir := "C:/app"
  versionCheck := .error (.fileNotFound "ffmpeg")
  makedirsTemp := .ok ()
  urlretrieve := .ok ()
  extractall := .ok ()
  walk := [("C:/app/temp/ffmpeg-master", ["readme.txt"])]
  copyFfmpeg := .ok ()
  rmtreeTemp := .ok () }

/-- Counterexample to claim C5 as stated: on this missing-binary Windows run
ensure_ffmpeg_installed returns true without copying any binary into place
and without printing an error, so it neither produces a locally invocable
transcoder nor returns false. -/
theorem c5_counterexample :
    (ensure_ffmpeg_installed envC5x).2.2 = .ok true ∧
      (ensure_ffmpeg_installed envC5x).1.filter ProvEvent.isCopy = [] ∧
      (ensure_ffmpeg_installed envC5x).2.1 =
        ["FFmpeg not found. Downloading...",
         "FFmpeg downloaded successfully."] := by
  refine ⟨by decide, by decide, by decide⟩

/-- Claim C5 as amended: on Windows with the binary missing,
ensure_ffmpeg_installed never raises: it either returns true — copying
ffmpeg.exe next to the program whenever the walk of the unpacked archive
finds one — or returns false after printing an error. -/
theorem c5_windows_missing_no_raise (env : ProvEnv) (msg : String)
    (hplat : env.platformSystem = "Windows")
    (hmiss : env.versionCheck = .error (.fileNotFound msg)) :
    ((ensure_ffmpeg_installed env).2.2 = .ok true ∨
      ((ensure_ffmpeg_installed env).2.2 = .ok false ∧
        ∃ m, ("Error downloading FFmpeg: " ++ m) ∈ (ensure_ffmpeg_installed env).2.1)) ∧
    ((ensure_ffmpeg_installed env).2.2 = .ok true →
      ∀ root, findExeRoot env.walk = some root →
        ProvEvent.copy (joinPath root "ffmpeg.exe") env.scriptDir ∈
          (ensure_ffmpeg_installed env).1) := by
  have hplat2 : (env.platformSystem != "Windows") = false := by
    rw [hplat]; decide
  cases hmk : env.makedirsTemp with
  | error e =>
    have hE : ensure_ffmpeg_installed env =
        ([.subproc ["ffmpeg", "-version"]],
         ["FFmpeg not found. Downloading...",
          "Error downloading FFmpeg: " ++ e.message], .ok false) := by
      simp [ensure_ffmpeg_installed, hmiss, caughtByVersionHandler, hplat2, hmk]
    rw [hE]
    exact ⟨Or.inr ⟨rfl, e.message, by simp⟩, by intro h; simp at h⟩
  | ok u1 =>
    cases hurl : env.urlretrieve with
    | error e =>
      have hE : ensure_ffmpeg_installed env =
          ([.subproc ["ffmpeg", "-version"],
            .write (joinPath env.scriptDir "temp"), .network ffmpeg_url],
           ["FFmpeg not found. Downloading...",
            "Error downloading FFmpeg: " ++ e.message], .ok false) := by
        simp [ensure_ffmpeg_installed, hmiss, caughtByVersionHandler, hplat2,
          hmk, hurl]
      rw [hE]
      exact ⟨Or.inr ⟨rfl, e.message, by simp⟩, by intro h; simp at h⟩
    | ok u2 =>
      cases hext : env.extractall with
      | error e =>
        have hE : ensure_ffmpeg_installed env =
            ([.subproc ["ffmpeg", "-version"],
              .write (joinPath env.scriptDir "temp"), .network ffmpeg_url,
              .write (joinPath (joinPath env.scriptDir "temp") "ffmpeg.zip")],
             ["FFmpeg not found. Downloading...",
              "Error downloading FFmpeg: " ++ e.message], .ok false) := by
          simp [ensure_ffmpeg_installed, hmiss, caughtByVersionHandler, hplat2,
            hmk, hurl, hext]
        rw [hE]
        exact ⟨Or.inr ⟨rfl, e.message, by simp⟩, by intro h; simp at h⟩
      | ok u3 =>
        cases hw : findExeRoot env.walk with
        | none =>
          cases hrm : env.rmtreeTemp with
          | error e =>
            have hE : ensure_ffmpeg_installed env =
                ([.subproc ["ffmpeg", "-version"],
                  .write (joinPath env.scriptDir "temp"), .network ffmpeg_url,
                  .write (joinPath (joinPath env.scriptDir "temp") "ffmpeg.zip"),
                  .write (joinPath env.scriptDir "temp")],
                 ["FFmpeg not found. Downloading...",
                  "Error downloading FFmpeg: " ++ e.message], .ok false) := by
              simp [ensure_ffmpeg_installed, hmiss, caughtByVersionHandler,
                hplat2, hmk, hurl, hext, hw, hrm]
            rw [hE]
            exact ⟨Or.inr ⟨rfl, e.message, by simp⟩, by intro h; simp at h⟩
          | ok u4 =>
            refine ⟨?_, ?_⟩
            · have hE : (ensure_ffmpeg_installed env).2.2 = .ok true := by
                simp [ensure_ffmpeg_installed, hmiss, caughtByVersionHandler,
                  hplat2, hmk, hurl, hext, hw, hrm]
              exact Or.inl hE
            · intro _ root hroot
              exact absurd hroot (by simp)
        | some root0 =>
          cases hcp : env.copyFfmpeg with
          | error e =>
            have hE : ensure_ffmpeg_installed env =
                ([.subproc ["ffmpeg", "-version"],
                  .write (joinPath env.scriptDir "temp"), .network ffmpeg_url,
                  .write (joinPath (joinPath env.scriptDir "temp") "ffmpeg.zip"),
                  .write (joinPath env.scriptDir "temp")],
                 ["FFmpeg not found. Downloading...",
                  "Error downloading FFmpeg: " ++ e.message], .ok false) := by
              simp [ensure_ffmpeg_installed, hmiss, caughtByVersionHandler,
                hplat2, hmk, hurl, hext, hw, hcp]
            rw [hE]
            exact ⟨Or.inr ⟨rfl, e.message, by simp⟩, by intro h; simp at h⟩
          | ok u4 =>
            cases hrm : env.rmtreeTemp with
            | error e =>
              have hE : ensure_ffmpeg_installed env =
                  ([.subproc ["ffmpeg", "-version"],
                    .write (joinPath env.scriptDir "temp"), .network ffmpeg_url,
                    .write (joinPath (joinPath env.scriptDir "temp") "ffmpeg.zip"),
                    .write (joinPath env.scriptDir "temp"),
                    .copy (joinPath root0 "ffmpeg.exe") env.scriptDir],
                   ["FFmpeg not found. Downloading...",
                    "Error downloading FFmpeg: " ++ e.message], .ok false) := by
                simp [ensure_ffmpeg_installed, hmiss, caughtByVersionHandler,
                  hplat2, hmk, hurl, hext, hw, hcp, hrm]
              rw [hE]
              exact ⟨Or.inr ⟨rfl, e.message, by simp⟩, by intro h; simp at h⟩
            | ok u5 =>
              have hE : ensure_ffmpeg_installed env =
                  ([.subproc ["ffmpeg", "-version"],
                    .write (joinPath env.scriptDir "temp"), .network ffmpeg_url,
                    .write (joinPath (joinPath env.scriptDir "temp") "ffmpeg.zip"),
                    .write (joinPath env.scriptDir "temp"),
                    .copy (joinPath root0 "ffmpeg.exe") env.scriptDir,
                    .delete (joinPath env.scriptDir "temp")],
                   ["FFmpeg not found. Downloading...",
                    "FFmpeg downloaded successfully."], .ok true) := by
                simp [ensure_ffmpeg_installed, hmiss, caughtByVersionHandler,
                  hplat2, hmk, hurl, hext, hw, hcp, hrm]
              rw [hE]
              refine ⟨Or.inl rfl, ?_⟩
              intro _ root hroot
              obtain rfl : root0 = root := Option.some.inj hroot
              simp

/-- Concrete instantiation for the amended claim C5: the archive holds
ffmpeg.exe under its bin directory and every step succeeds. -/
def envC5 : ProvEnv := {
  platformSystem := "Windows"
  scriptDir := "C:/app"
  versionCheck := .error (.fileNotFound "ffmpeg")
  makedirsTemp := .ok ()
  urlretrieve := .ok ()
  extractall := .ok ()
  walk := [("C:/app/temp/ffmpeg-master", ["readme.txt"]),
           ("C:/app/temp/ffmpeg-master/bin", ["ffmpeg.exe", "ffprobe.exe"])]
  copyFfmpeg := .ok ()
  rmtreeTemp := .ok () }

/-- Witness for the amended claim C5 at a concrete environment. -/
theorem c5_witness :
    ((ensure_ffmpeg_installed envC5).2.2 = .ok true ∨
      ((ensure_ffmpeg_installed envC5).2.2 = .ok false ∧
        ∃ m, ("Error downloading FFmpeg: " ++ m) ∈ (ensure_ffmpeg_installed envC5).2.1)) ∧
    ((ensure_ffmpeg_installed envC5).2.2 = .ok true →
      ∀ root, findExeRoot envC5.walk = some root →
        ProvEvent.copy (joinPath root "ffmpeg.exe") envC5.scriptDir ∈
          (ensure_ffmpeg_installed envC5).1) :=
  c5_windows_missing_no_raise envC5 "ffmpeg" rfl rfl

end YtMp3
